import Mathlib

/-!
Verification development for the Cora simulation engine.

This file gives a shallow embedding, in Lean 4, of the parts of the code base
that the checked claims are about:

* the lending-pool state machine (`LendingPool.take_step`, `deposit`,
  `withdraw_liquidity`, `borrow`, `repay`) from
  `protocols/cora/v1/business_logic/lending_pool.py`;
* the Kelly fee-model grid lookup (`select_next_highest`,
  `KellyFeeModel.get_fee`) from
  `protocols/cora/v1/business_logic/fee_models/kelly_fee_model.py`;
* the borrower agent's borrow stage from `protocols/cora/v1/agents.py`;
* the strategies' borrower-removal loop from `protocols/cora/v1/strategies.py`;
* `safe_divide` from `simulator/metrics/calculations.py`;
* `get_days_between_unix_timestamps` from `apis/coingecko/market_chart.py`.

Modelling conventions: Python floats become rationals (`ℚ`); `datetime` and
`timedelta` values become unix seconds (`ℤ`); Python dictionaries become
association lists with Python's insertion-order update semantics; fallible
code returns `Option`/`Except`, with dedicated error values standing for
Python's `KeyError`, `ZeroDivisionError` and `AssertionError` where the source
can raise them.  The fee model is passed as an abstract function
(`ℚ → ℚ → ℤ → ℚ`), since only the lending-pool accounting around it is under
scrutiny; likewise a Kelly curve is kept as an abstract `ℚ → ℚ` because its
evaluation uses the transcendental `cosh`.
-/

namespace Cora

/-! ## Python-dictionary helpers (insertion-ordered association lists) -/

/-- `d.get(k)`: the value bound to `k`, if present. -/
def dictGet? {κ α : Type} [DecidableEq κ] : List (κ × α) → κ → Option α
  | [], _ => none
  | (k, v) :: rest, key => if k = key then some v else dictGet? rest key

/-- `k in d`. -/
def dictContains {κ α : Type} [DecidableEq κ] (d : List (κ × α)) (k : κ) : Bool :=
  (dictGet? d k).isSome

/-- `d.get(k, dflt)`. -/
def dictGetD {κ α : Type} [DecidableEq κ] (d : List (κ × α)) (k : κ) (dflt : α) : α :=
  (dictGet? d k).getD dflt

/-- `d[k] = v`: update in place when the key exists, append otherwise
(Python dictionaries keep the position of an existing key). -/
def dictSet {κ α : Type} [DecidableEq κ] : List (κ × α) → κ → α → List (κ × α)
  | [], key, v => [(key, v)]
  | (k, w) :: rest, key, v =>
      if k = key then (k, v) :: rest else (k, w) :: dictSet rest key v

/-- The Python pattern `if k not in d: d[k] = 0` followed by `d[k] += v`. -/
def dictIncr {κ : Type} [DecidableEq κ] (d : List (κ × ℚ)) (k : κ) (v : ℚ) :
    List (κ × ℚ) :=
  dictSet d k (dictGetD d k 0 + v)

/-- `del d[k]` (the callers guard the key's presence). -/
def dictDelete {κ α : Type} [DecidableEq κ] : List (κ × α) → κ → List (κ × α)
  | [], _ => []
  | (k, w) :: rest, key => if k = key then rest else (k, w) :: dictDelete rest key

/-- `sum(d.values())` for a float-valued dictionary. -/
def dictSumValues {κ : Type} (d : List (κ × ℚ)) : ℚ :=
  (d.map Prod.snd).sum

/-- Decidable equality for `Except` results. -/
instance exceptDecEq {ε α : Type} [DecidableEq ε] [DecidableEq α] :
    DecidableEq (Except ε α) := fun x y =>
  match x, y with
  | .ok a, .ok b =>
      if h : a = b then isTrue (by rw [h]) else isFalse (by simp [h])
  | .error a, .error b =>
      if h : a = b then isTrue (by rw [h]) else isFalse (by simp [h])
  | .ok _, .error _ => isFalse (by simp)
  | .error _, .ok _ => isFalse (by simp)

/-! ## Environment, wallets, loans, pool state -/

/-- The slice of `BaseCoraEnvironment` the pool operations read: the current
simulated time (unix seconds) and the current collateral price. -/
structure Env where
  time : ℤ
  price : ℚ
deriving Repr, DecidableEq

/-- `agents.Wallet`. -/
structure Wallet where
  address : String
  primary_balance : ℚ
  secondary_balance : ℚ
deriving Repr, DecidableEq

/-- `lending_pool.Loan`. -/
structure Loan where
  start_time : ℤ
  borrowing_fee : ℚ
  net_loan : ℚ
  total_debt : ℚ
  expiration_time : ℤ
  collateral_amount : ℚ
  loan_id : String
  borrower_address : String
  initial_ltv : ℚ
  paid : Bool
deriving Repr, DecidableEq

/-- `Loan.get_sizedays`: duration in days times the net loan. -/
def Loan.get_sizedays (loan : Loan) : ℚ :=
  ((loan.expiration_time - loan.start_time : ℤ) : ℚ) / 86400 * loan.net_loan

/-- `lending_pool.LendingPoolStatus`. -/
inductive LendingPoolStatus
  | genesis
  | running
deriving Repr, DecidableEq

/-- `lending_pool.CycleData`. -/
structure CycleData where
  initial_liquidity : ℚ
  remaining_liquidity : ℚ
  total_reclaimed_collateral : ℚ
  total_fees_earned : ℚ
  final_collateral_price : ℚ
  final_collateral_value : ℚ
  average_utilization : ℚ
  normalized_utilization : ℚ
  loans : List Loan
deriving Repr, DecidableEq

/-- `lending_pool.LendingPool`: constructor configuration plus mutable state.
Periods and times are unix seconds.  The field `min_load_period` keeps the
source's spelling. -/
structure LendingPool where
  name : String
  max_ltv : ℚ
  max_liquidity : ℚ
  genesis_period : ℤ
  running_period : ℤ
  min_liquidity : ℚ
  min_loan_amount : ℚ
  min_load_period : ℤ
  min_position_size : ℚ
  status : LendingPoolStatus
  next_cycle_time : ℤ
  pending_deposits : List (String × ℚ)
  signaled_withdrawals : List (String × ℚ)
  pending_withdrawals : List (String × ℚ)
  reclaimed_collateral : List (String × ℚ)
  deposits : List (String × ℚ)
  borrower_loans : List (String × List String)
  loans : List (String × Loan)
  utilizations : List ℚ
  cycle_history : List (ℕ × CycleData)
  total_deposits : ℚ
  total_collateral_locked : ℚ
  available_amount : ℚ
  borrowed_amount : ℚ
  total_fees_earned : ℚ
  is_new_cycle : Bool
  cycle_count : ℕ
deriving Repr, DecidableEq

/-! ## Division helpers and utilization -/

/-- `calculations.safe_divide`: `a / b if b != 0 else 0.0`. -/
def safe_divide (a b : ℚ) : ℚ :=
  if b ≠ 0 then a / b else 0

/-- `LendingPool.get_utilization` (the per-tick reading appended to the tick
history): `safe_divide(borrowed, borrowed + available)`. -/
def LendingPool.get_utilization (p : LendingPool) : ℚ :=
  safe_divide p.borrowed_amount (p.borrowed_amount + p.available_amount)

/-- `LendingPool.get_current_utilization` (the reading used for fee
calculation): `1.0` when `available == 0`; otherwise `borrowed / total`
clamped below by `0`.  `none` models the `ZeroDivisionError` Python raises
when `available ≠ 0` but `available + borrowed == 0`. -/
def LendingPool.get_current_utilization (p : LendingPool) : Option ℚ :=
  if p.available_amount = 0 then some 1
  else
    let total_amount := p.available_amount + p.borrowed_amount
    if total_amount = 0 then none
    else
      let utilization := p.borrowed_amount / total_amount
      some (if utilization > 0 then utilization else 0)

/-- `LendingPool.get_current_available_amount`. -/
def LendingPool.get_current_available_amount (p : LendingPool) : ℚ :=
  p.available_amount

/-! ## Timestamp distance (`apis/coingecko/market_chart.py`) -/

/-- `get_days_between_unix_timestamps(start, end) = abs((end - start) // 86400)`.
Python's `//` is floor division, hence `Int.fdiv`. -/
def get_days_between_unix_timestamps (start finish : ℤ) : ℤ :=
  |Int.fdiv (finish - start) 86400|

/-! ## `LendingPool.take_step`

The per-tick step.  `none` models the runs on which the Python code raises:
a `ZeroDivisionError` computing an ownership share when `deposits` is
non-empty but `total_deposits == 0`, a `KeyError` when a signaled withdrawal's
address is missing from the settled liquidity, and a `ZeroDivisionError`
computing `normalized_utilization` when `pool_sizedays == 0`.  Events are
reduced to their `type` strings. -/

/-- The trailing reset block of `take_step` (step "c" in the spec): clear the
per-cycle books, recompute `total_deposits` from `deposits`, refill
`available_amount` and advance `next_cycle_time`. -/
def resetPoolData (p : LendingPool) : LendingPool :=
  { p with
      pending_deposits := []
      signaled_withdrawals := []
      borrower_loans := []
      loans := []
      total_deposits := dictSumValues p.deposits
      total_collateral_locked := 0
      available_amount := dictSumValues p.deposits
      borrowed_amount := 0
      total_fees_earned := 0
      utilizations := []
      next_cycle_time := p.next_cycle_time + p.running_period }

/-- First settlement loop: build `lenders_final_liquidity` and add each
lender's share of the locked collateral to `reclaimed_collateral`. -/
def settleDepositLoop (total_deposits remaining_liquidity total_reclaimed : ℚ)
    (deposits : List (String × ℚ)) (reclaimed : List (String × ℚ)) :
    List (String × ℚ) × List (String × ℚ) :=
  deposits.foldl
    (fun acc entry =>
      let share := entry.2 / total_deposits
      (dictSet acc.1 entry.1 (share * remaining_liquidity),
       dictIncr acc.2 entry.1 (share * total_reclaimed)))
    ([], reclaimed)

/-- Second settlement loop: move each signaled fraction of the settled
liquidity into `pending_withdrawals`. -/
def settleWithdrawalLoop (signaled : List (String × ℚ))
    (final_liquidity pending : List (String × ℚ)) :
    List (String × ℚ) × List (String × ℚ) :=
  signaled.foldl
    (fun acc entry =>
      let lender_liquidity := dictGetD acc.1 entry.1 0
      let lender_withdrawal := lender_liquidity * entry.2
      (dictSet acc.1 entry.1 (lender_liquidity - lender_withdrawal),
       dictIncr acc.2 entry.1 lender_withdrawal))
    (final_liquidity, pending)

/-- Third settlement loop: merge residual (positive) final liquidity into the
new deposit book. -/
def mergeResidualLoop (final_liquidity deposits : List (String × ℚ)) :
    List (String × ℚ) :=
  final_liquidity.foldl
    (fun book entry => if entry.2 > 0 then dictIncr book entry.1 entry.2 else book)
    deposits

/-- `LendingPool.take_step`. -/
def LendingPool.take_step (env : Env) (p0 : LendingPool) :
    Option (LendingPool × List String) :=
  let time := env.time
  let p := { p0 with utilizations := p0.utilizations ++ [p0.get_utilization] }
  if time ≥ p.next_cycle_time then
    -- Cycle has changed
    if p.status = LendingPoolStatus.genesis then
      -- First cycle: promote to running, adopt the pending deposits
      let p1 := { p with
        is_new_cycle := true
        status := LendingPoolStatus.running
        cycle_count := p.cycle_count + 1
        deposits := p.pending_deposits }
      some (resetPoolData p1, ["lending_pool_genesis_period_ended"])
    else
      -- End of a running cycle: settlements
      if p.deposits ≠ [] ∧ p.total_deposits = 0 then none
      else
        let cycle_count1 := p.cycle_count + 1
        let total_reclaimed := p.total_collateral_locked
        let remaining_liquidity := p.available_amount
        let settled := settleDepositLoop p.total_deposits remaining_liquidity
          total_reclaimed p.deposits p.reclaimed_collateral
        if ¬ (p.signaled_withdrawals.all (fun kv => dictContains settled.1 kv.1)) then
          none
        else
          let withdrawn := settleWithdrawalLoop p.signaled_withdrawals settled.1
            p.pending_withdrawals
          let deposits1 := mergeResidualLoop withdrawn.1 p.pending_deposits
          let average_utilization := p.utilizations.sum / (p.utilizations.length : ℚ)
          let pool_sizedays := p.total_deposits * (p.running_period : ℚ) / 86400
          if pool_sizedays = 0 then none
          else
            let normalized_utilization :=
              ((p.loans.map (fun kv => kv.2.get_sizedays)).sum) / pool_sizedays
            let data : CycleData := {
              initial_liquidity := p.total_deposits
              remaining_liquidity := p.available_amount
              total_reclaimed_collateral := total_reclaimed
              total_fees_earned := p.total_fees_earned
              final_collateral_price := env.price
              final_collateral_value := env.price * total_reclaimed
              average_utilization := average_utilization
              normalized_utilization := normalized_utilization
              loans := p.loans.map Prod.snd }
            let p1 := { p with
              is_new_cycle := true
              cycle_count := cycle_count1
              reclaimed_collateral := settled.2
              pending_withdrawals := withdrawn.2
              deposits := deposits1
              cycle_history := dictSet p.cycle_history (cycle_count1 - 1) data }
            some (resetPoolData p1, ["lending_pool_running_period_ended"])
  else
    some ({ p with is_new_cycle := false }, [])

/-! ## Pool operations -/

/-- The exception kinds the modelled operations can raise.  The first ten are
the protocol's named error classes from
`protocols/cora/v1/exceptions/exceptions.py`; `keyError`, `zeroDivision` and
`assertionError` stand for Python's built-in `KeyError`, `ZeroDivisionError`
and `AssertionError`. -/
inductive PoolError
  | lendingPoolNotRunning
  | loanAmountTooLow
  | insuficientCollateral
  | insufficientBalance
  | insufficientLiquidity
  | invalidLoanPeriodShort
  | invalidLoanPeriodLong
  | nonExistingBorrowerAddress
  | invalidLoanId
  | loanExpiredError
  | keyError
  | zeroDivision
  | assertionError
deriving Repr, DecidableEq

/-- Whether an error is one of the protocol's distinct named error classes
(as opposed to a Python built-in exception). -/
def PoolError.isNamed : PoolError → Bool
  | .keyError => false
  | .zeroDivision => false
  | .assertionError => false
  | _ => true

/-- `LendingPool.deposit`: allowed in any status; requires the lender's
primary balance to cover the amount; locks the amount into
`pending_deposits`. -/
def LendingPool.deposit (p : LendingPool) (lender : Wallet) (amount : ℚ) :
    Except PoolError (LendingPool × Wallet) :=
  if lender.primary_balance < amount then .error .insufficientBalance
  else
    .ok ({ p with pending_deposits := dictIncr p.pending_deposits lender.address amount },
         { lender with primary_balance := lender.primary_balance - amount })

/-- `LendingPool.withdraw_liquidity`: pull from `pending_deposits` first, then
from `pending_withdrawals`; credit the wallet.  The two `keyError` exits model
`del self._pending_deposits[addr]` on an absent key and
`self._pending_withdrawals[addr] -= …` on an absent key. -/
def LendingPool.withdraw_liquidity (p : LendingPool) (lender : Wallet) (amount : ℚ) :
    Except PoolError (LendingPool × Wallet) :=
  if ¬ (amount > 0) then .error .assertionError
  else
    let pending_deposits := dictGetD p.pending_deposits lender.address 0
    let pending_withdrawals := dictGetD p.pending_withdrawals lender.address 0
    let total_available := pending_deposits + pending_withdrawals
    if ¬ (total_available ≥ amount) then .error .assertionError
    else
      if amount < pending_deposits then
        .ok ({ p with pending_deposits :=
                 dictSet p.pending_deposits lender.address (pending_deposits - amount) },
             { lender with primary_balance := lender.primary_balance + amount })
      else
        if ¬ (dictContains p.pending_deposits lender.address) then .error .keyError
        else
          let p1 := { p with pending_deposits := dictDelete p.pending_deposits lender.address }
          let remaining_amount := amount - pending_deposits
          if ¬ (dictContains p.pending_withdrawals lender.address) then .error .keyError
          else
            let pw1 := dictSet p1.pending_withdrawals lender.address
              (pending_withdrawals - remaining_amount)
            .ok ({ p1 with pending_withdrawals := pw1 },
                 { lender with primary_balance := lender.primary_balance + amount })

/-- `LendingPool.calculate_loan_id`: `f"{name}-{address}-{expiration}"`. -/
def LendingPool.calculate_loan_id (p : LendingPool) (address : String)
    (expiration_timestamp : ℤ) : String :=
  p.name ++ "-" ++ address ++ "-" ++ toString expiration_timestamp

/-- `LendingPool.borrow`.  `fee_model` abstracts
`self._fee_model.get_fee(ltv, utilization, loan_period)`.  The error carries
the pool and wallet at raise time (all raises happen before any mutation in
the source, so the carried state always equals the input state).  The early
`zeroDivision` exit models `ltv = borrow_amount / total_collateral_value`
when the collateral value is zero — the source computes it before the named
checks run. -/
def LendingPool.borrow (fee_model : ℚ → ℚ → ℤ → ℚ) (env : Env) (p : LendingPool)
    (borrower : Wallet) (borrow_amount collateral_amount : ℚ) (loan_period : ℤ) :
    Except (PoolError × LendingPool × Wallet) (LendingPool × Wallet × Loan) :=
  if p.status ≠ LendingPoolStatus.running then
    .error (.lendingPoolNotRunning, p, borrower)
  else
    let price := env.price
    let time := env.time
    let total_collateral_value := collateral_amount * price
    if total_collateral_value = 0 then .error (.zeroDivision, p, borrower)
    else
      let ltv := borrow_amount / total_collateral_value
      let max_amount_available_to_borrow := total_collateral_value * p.max_ltv
      if borrow_amount < p.min_loan_amount then
        .error (.loanAmountTooLow, p, borrower)
      else if borrow_amount > max_amount_available_to_borrow then
        .error (.insuficientCollateral, p, borrower)
      else if borrower.secondary_balance < collateral_amount then
        .error (.insufficientBalance, p, borrower)
      else if p.available_amount < borrow_amount then
        .error (.insufficientLiquidity, p, borrower)
      else if loan_period < p.min_load_period then
        .error (.invalidLoanPeriodShort, p, borrower)
      else if loan_period > p.next_cycle_time - time then
        .error (.invalidLoanPeriodLong, p, borrower)
      else
        match p.get_current_utilization with
        | none => .error (.zeroDivision, p, borrower)
        | some utilization =>
          let borrowing_fee := fee_model ltv utilization loan_period * borrow_amount
          let net_loan_amount := borrow_amount - borrowing_fee
          let expiration_time := time + loan_period
          let loan_id := p.calculate_loan_id borrower.address expiration_time
          let initial_loan_ltv := borrow_amount / (collateral_amount * price)
          let loan : Loan := {
            start_time := time
            borrowing_fee := borrowing_fee
            net_loan := net_loan_amount
            total_debt := borrow_amount
            expiration_time := expiration_time
            collateral_amount := collateral_amount
            loan_id := loan_id
            borrower_address := borrower.address
            initial_ltv := initial_loan_ltv
            paid := false }
          .ok
            ({ p with
                total_collateral_locked := p.total_collateral_locked + collateral_amount
                available_amount := p.available_amount - net_loan_amount
                borrowed_amount := p.borrowed_amount + net_loan_amount
                borrower_loans := dictSet p.borrower_loans borrower.address
                  (dictGetD p.borrower_loans borrower.address [] ++ [loan_id])
                loans := dictSet p.loans loan_id loan },
             { borrower with
                secondary_balance := borrower.secondary_balance - collateral_amount
                primary_balance := borrower.primary_balance + net_loan_amount },
             loan)

/-- `LendingPool.repay`.  All raises precede all mutations in the source, so
an error leaves pool and wallet untouched.  The `keyError` exit models
`self._loans[loan_id]` when the id is tracked for the borrower but absent
from the loan book. -/
def LendingPool.repay (env : Env) (p : LendingPool) (borrower : Wallet)
    (loan_id : String) : Except PoolError (LendingPool × Wallet) :=
  if p.status ≠ LendingPoolStatus.running then .error .lendingPoolNotRunning
  else if ¬ (dictContains p.borrower_loans borrower.address) then
    .error .nonExistingBorrowerAddress
  else if ¬ (loan_id ∈ dictGetD p.borrower_loans borrower.address []) then
    .error .invalidLoanId
  else
    match dictGet? p.loans loan_id with
    | none => .error .keyError
    | some loan =>
      if env.time > loan.expiration_time then .error .loanExpiredError
      else if borrower.primary_balance < loan.total_debt then
        .error .insufficientBalance
      else
        .ok
          ({ p with
              available_amount := p.available_amount + loan.total_debt
              borrowed_amount := p.borrowed_amount - loan.net_loan
              total_collateral_locked := p.total_collateral_locked - loan.collateral_amount
              total_fees_earned := p.total_fees_earned + loan.borrowing_fee
              borrower_loans := dictSet p.borrower_loans borrower.address
                ((dictGetD p.borrower_loans borrower.address []).erase loan_id)
              loans := dictSet p.loans loan_id { loan with paid := true } },
           { borrower with
              primary_balance := borrower.primary_balance - loan.total_debt
              secondary_balance := borrower.secondary_balance + loan.collateral_amount })

/-! ## Kelly fee model (`fee_models/kelly_fee_model.py`) -/

/-- `np.searchsorted(sorted_array, value, side="right")`: for a sorted array,
the insertion index keeping it sorted with equal entries to the left, i.e.
the number of entries `≤ value`. -/
def searchsorted_right (sorted_array : List ℚ) (value : ℚ) : ℕ :=
  sorted_array.countP (fun x => decide (x ≤ value))

/-- `select_next_highest(sorted_array, value)` exactly as the source computes
it: `idx = max(np.searchsorted(sorted_array, value, side="right"),
len(sorted_array) - 1)` then `sorted_array[idx]`.  `none` models the
`IndexError` raised when `idx == len(sorted_array)`. -/
def select_next_highest (sorted_array : List ℚ) (value : ℚ) : Option ℚ :=
  let idx := max (searchsorted_right sorted_array value) (sorted_array.length - 1)
  sorted_array.get? idx

/-- The docstring's and spec's intent for `select_next_highest`: the smallest
entry `≥ value`, or the maximum when no entry is larger.  (Kept for
comparison with the source's computation; it uses `min` where the source
uses `max`.) -/
def select_next_highest_intended (sorted_array : List ℚ) (value : ℚ) : Option ℚ :=
  let idx := min (searchsorted_right sorted_array value) (sorted_array.length - 1)
  sorted_array.get? idx

/-- `KellyFeeModel` after `update_parameters`: the curve grid keyed by
`(ltv, days)` plus the sorted de-duplicated key projections.  A curve is
abstracted to its evaluation function `ℚ → ℚ` (the source's
`a·u·cosh(b·u^c) + d` uses the transcendental `cosh`). -/
structure KellyFeeModel where
  curve_grid : List ((ℚ × ℚ) × (ℚ → ℚ))
  ltvs : List ℚ
  days : List ℚ

/-- `KellyFeeModel.get_fee`: snap `ltv` and `loan_period.days` (the whole
days of the timedelta, i.e. the floor of `seconds / 86400`) with
`select_next_highest`, look the curve up in the grid, evaluate it at
`utilization`.  `none` models an `IndexError`/`KeyError` escape. -/
def KellyFeeModel.get_fee (m : KellyFeeModel) (ltv : ℚ) (utilization : ℚ)
    (loan_period_seconds : ℤ) : Option ℚ := do
  let grid_ltv ← select_next_highest m.ltvs ltv
  let grid_days ← select_next_highest m.days ((Int.fdiv loan_period_seconds 86400 : ℤ) : ℚ)
  let curve ← dictGet? m.curve_grid (grid_ltv, grid_days)
  pure (curve utilization)

/-! ## Borrower agent, borrow stage (`agents.py`, `CoraBorrowerAgent.act`) -/

/-- The borrower agent's plan and flags. -/
structure CoraBorrowerAgent where
  wallet : Wallet
  lending_pool_name : String
  loan_size : ℚ
  loan_start : ℤ
  loan_duration : ℤ
  ltv : ℚ
  repay_margin : ℤ
  has_borrowed : Bool
  has_expired : Bool
  loan : Option Loan
deriving Repr, DecidableEq

/-- The first stage of `CoraBorrowerAgent.act` (asking for a loan): when the
start time is reached and the agent has not yet borrowed, it borrows exactly
when the pool's current available amount is strictly greater than
`loan_size` and the duration fits before `next_cycle_time`; then
`collateral = loan_size / ltv / price` and `pool.borrow(...)` runs, a
`borrow` action is emitted and the agent is marked borrowed.  `zeroDivision`
models `loan_size / self.ltv / spot_price` with a zero divisor; pool errors
propagate. -/
def CoraBorrowerAgent.act_borrow_stage (fee_model : ℚ → ℚ → ℤ → ℚ) (env : Env)
    (pool : LendingPool) (a : CoraBorrowerAgent) :
    Except PoolError (LendingPool × CoraBorrowerAgent × List String) :=
  if env.time ≥ a.loan_start ∧ a.has_borrowed = false then
    if pool.get_current_available_amount > a.loan_size ∧
        a.loan_duration ≤ pool.next_cycle_time - env.time then
      let spot_price := env.price
      if a.ltv = 0 ∨ spot_price = 0 then .error .zeroDivision
      else
        let collateral_amount := a.loan_size / a.ltv / spot_price
        match pool.borrow fee_model env a.wallet a.loan_size collateral_amount
            a.loan_duration with
        | .error (e, _, _) => .error e
        | .ok (pool1, wallet1, loan) =>
          .ok (pool1,
               { a with wallet := wallet1, loan := some loan, has_borrowed := true },
               ["borrow"])
    else .ok (pool, a, [])
  else .ok (pool, a, [])

/-! ## Strategy borrower replacement (`strategies.py`) -/

/-- An agent as the strategies' update loop sees it: an identity plus whether
`isinstance(agent, CoraBorrowerAgent)` holds. -/
structure AgentRec where
  ident : ℕ
  is_borrower : Bool
deriving Repr, DecidableEq

/-- The Python loop
`for agent in agents: if isinstance(agent, CoraBorrowerAgent): agents.remove(agent)`
with Python's list-iterator semantics: the iterator advances its index every
step while `remove` shifts the tail left, so the element after a removed one
is skipped.  `i` is the iterator index. -/
def removeBorrowersLoop (agents : List AgentRec) (i : ℕ) : List AgentRec :=
  if h : i < agents.length then
    let agent := agents.get ⟨i, h⟩
    if agent.is_borrower then
      removeBorrowersLoop (agents.erase agent) (i + 1)
    else
      removeBorrowersLoop agents (i + 1)
  else agents
termination_by agents.length - i
decreasing_by
  · have hx : agents.get ⟨i, h⟩ ∈ agents := List.get_mem agents i h
    have hlen : (agents.erase (agents.get ⟨i, h⟩)).length = agents.length - 1 :=
      List.length_erase_of_mem hx
    omega
  · omega

/-- `CoraV1Strategy.update_agents` restricted to one pool: when the pool
reports a new cycle, run the removal loop and extend with the freshly created
borrower agents (abstracted as `new_agents`, since their construction draws
from random distributions); otherwise return the list unchanged. -/
def coraV1Strategy_update_agents (pool_is_new_cycle : Bool)
    (agents new_agents : List AgentRec) : List AgentRec :=
  if pool_is_new_cycle then removeBorrowersLoop agents 0 ++ new_agents
  else agents

/-- `CoraV2Strategy.update_agents`: its removal-and-extend body is textually
identical to the V1 strategy's. -/
def coraV2Strategy_update_agents (pool_is_new_cycle : Bool)
    (agents new_agents : List AgentRec) : List AgentRec :=
  if pool_is_new_cycle then removeBorrowersLoop agents 0 ++ new_agents
  else agents

/-! ## Spec-side comparison definition for `borrow` -/

/-- Modelled from the spec: the precondition list of `borrow` with its named
error for each entry, in the order the spec (and the source) lists them.
This is the specification-side description, kept separate from
`LendingPool.borrow` so the two can be compared. -/
def borrowCheck (env : Env) (p : LendingPool) (borrower : Wallet)
    (borrow_amount collateral_amount : ℚ) (loan_period : ℤ) : Option PoolError :=
  if p.status ≠ LendingPoolStatus.running then some .lendingPoolNotRunning
  else if borrow_amount < p.min_loan_amount then some .loanAmountTooLow
  else if borrow_amount > collateral_amount * env.price * p.max_ltv then
    some .insuficientCollateral
  else if borrower.secondary_balance < collateral_amount then some .insufficientBalance
  else if p.available_amount < borrow_amount then some .insufficientLiquidity
  else if loan_period < p.min_load_period then some .invalidLoanPeriodShort
  else if loan_period > p.next_cycle_time - env.time then some .invalidLoanPeriodLong
  else none

/-! ## Concrete instances used by counterexamples and witnesses -/

/-- A fee model that charges nothing, used where the fee value is
irrelevant. -/
def feeZero : ℚ → ℚ → ℤ → ℚ := fun _ _ _ => 0

/-- A freshly constructed pool in genesis status (a week of genesis, a
30-day running period), as the V1 strategy configures it. -/
def basePool : LendingPool := {
  name := "V1LendingPool"
  max_ltv := 9/10
  max_liquidity := 1000000
  genesis_period := 604800
  running_period := 2592000
  min_liquidity := 0
  min_loan_amount := 0
  min_load_period := 0
  min_position_size := 0
  status := LendingPoolStatus.genesis
  next_cycle_time := 604800
  pending_deposits := []
  signaled_withdrawals := []
  pending_withdrawals := []
  reclaimed_collateral := []
  deposits := []
  borrower_loans := []
  loans := []
  utilizations := []
  cycle_history := []
  total_deposits := 0
  total_collateral_locked := 0
  available_amount := 0
  borrowed_amount := 0
  total_fees_earned := 0
  is_new_cycle := false
  cycle_count := 0 }

/-- A running pool with `borrowed = 1`, `available = 3`. -/
def cUtilPool : LendingPool :=
  { basePool with
      status := LendingPoolStatus.running
      total_deposits := 4
      available_amount := 3
      borrowed_amount := 1 }

/-- A pool with `available = borrowed = 0`. -/
def cEmptyPool : LendingPool :=
  { basePool with status := LendingPoolStatus.running }

/-- A genesis pool holding a pending deposit and a deposit book. -/
def c10Pool : LendingPool :=
  { basePool with
      pending_deposits := [("alice", 7)]
      deposits := [("bob", 3)]
      total_deposits := 3
      available_amount := 3 }

/-- A lender wallet. -/
def aliceWallet : Wallet := { address := "alice", primary_balance := 100, secondary_balance := 50 }

/-- A running pool whose lender has claimable `pending_withdrawals` but no
entry in `pending_deposits`. -/
def c6PoolA : LendingPool :=
  { basePool with
      status := LendingPoolStatus.running
      pending_withdrawals := [("lender1", 10)] }

/-- A running pool whose lender has exactly `5` in `pending_deposits` and no
entry in `pending_withdrawals`. -/
def c6PoolB : LendingPool :=
  { basePool with
      status := LendingPoolStatus.running
      pending_deposits := [("lender1", 5)] }

/-- The lender of the two pools above. -/
def c6Lender : Wallet := { address := "lender1", primary_balance := 0, secondary_balance := 0 }

/-- A Kelly model whose grid has three distinct ltv values and one day value;
the curve keyed by ltv `q` is the constant function returning `4·q` so the
selected key can be read off the fee. -/
def c4Model : KellyFeeModel := {
  curve_grid := [((1/4, 10), fun _ => 1), ((1/2, 10), fun _ => 2), ((3/4, 10), fun _ => 3)]
  ltvs := [1/4, 1/2, 3/4]
  days := [10] }

/-- Two borrower agents and one non-borrower agent. -/
def bAgent0 : AgentRec := { ident := 0, is_borrower := true }

def bAgent1 : AgentRec := { ident := 1, is_borrower := true }

def lAgent2 : AgentRec := { ident := 2, is_borrower := false }

/-- Environment at time `0` with price `2`. -/
def c7Env : Env := { time := 0, price := 2 }

/-- A running pool with `available_amount = 100` and plenty of cycle left. -/
def c7Pool : LendingPool :=
  { basePool with
      status := LendingPoolStatus.running
      total_deposits := 100
      available_amount := 100
      next_cycle_time := 1000 }

/-- A borrower agent whose `loan_size` equals the pool's available amount
exactly and whose duration fits in the remaining cycle. -/
def c7Agent : CoraBorrowerAgent := {
  wallet := { address := "b1", primary_balance := 1000, secondary_balance := 1000 }
  lending_pool_name := "V1LendingPool"
  loan_size := 100
  loan_start := 0
  loan_duration := 10
  ltv := 1/2
  repay_margin := 1
  has_borrowed := false
  has_expired := false
  loan := none }

/-- A loan for the repay scenario: debt `100`, net loan `98`, fee `2`,
collateral `80`, expiring at time `500`. -/
def c3Loan : Loan := {
  start_time := 0
  borrowing_fee := 2
  net_loan := 98
  total_debt := 100
  expiration_time := 500
  collateral_amount := 80
  loan_id := "V1LendingPool-b1-500"
  borrower_address := "b1"
  initial_ltv := 1
  paid := false }

/-- A running pool holding `c3Loan` for borrower `b1`. -/
def c3Pool : LendingPool :=
  { basePool with
      status := LendingPoolStatus.running
      total_deposits := 200
      available_amount := 100
      borrowed_amount := 98
      total_collateral_locked := 80
      borrower_loans := [("b1", ["V1LendingPool-b1-500"])]
      loans := [("V1LendingPool-b1-500", c3Loan)] }

/-- Environment before the loan's expiration. -/
def c3Env : Env := { time := 400, price := 2 }

/-- The borrower's wallet, with enough primary balance to repay. -/
def c3Wallet : Wallet := { address := "b1", primary_balance := 150, secondary_balance := 10 }

/-- Environment for the borrow scenarios: time `0`, price `10`. -/
def c2Env : Env := { time := 0, price := 10 }

/-- A running pool with ample liquidity. -/
def c2Pool : LendingPool :=
  { basePool with
      status := LendingPoolStatus.running
      total_deposits := 1000
      available_amount := 1000
      next_cycle_time := 1000 }

/-- A running pool with a positive minimum loan amount. -/
def c2wPool : LendingPool :=
  { basePool with
      status := LendingPoolStatus.running
      min_loan_amount := 10
      total_deposits := 1000
      available_amount := 1000
      next_cycle_time := 1000 }

/-- A borrower wallet holding `50` units of collateral. -/
def c2Wallet : Wallet := { address := "bb", primary_balance := 0, secondary_balance := 50 }

/-- Environment at the end of the genesis period of `c1Pool`. -/
def c1Env : Env := { time := 604800, price := 3 }

/-- A genesis pool with two pending deposits, about to be promoted. -/
def c1Pool : LendingPool :=
  { basePool with pending_deposits := [("alice", 50), ("bob", 20)] }

/-! ## Dictionary lemmas -/

lemma dictGet?_dictSet_self {κ α : Type} [DecidableEq κ]
    (d : List (κ × α)) (k : κ) (v : α) : dictGet? (dictSet d k v) k = some v := by
  induction d with
  | nil => simp [dictSet, dictGet?]
  | cons hd tl ih =>
    obtain ⟨k1, v1⟩ := hd
    by_cases hk : k1 = k
    · simp [dictSet, dictGet?, hk]
    · simp [dictSet, dictGet?, hk, ih]

lemma dictGet?_dictSet_ne {κ α : Type} [DecidableEq κ]
    (d : List (κ × α)) (k k1 : κ) (v : α) (hne : k1 ≠ k) :
    dictGet? (dictSet d k v) k1 = dictGet? d k1 := by
  have hkk : ¬ k = k1 := fun h => hne h.symm
  induction d with
  | nil => simp [dictSet, dictGet?, hkk]
  | cons hd tl ih =>
    obtain ⟨k2, v2⟩ := hd
    by_cases hk : k2 = k
    · subst hk
      simp [dictSet, dictGet?, hkk]
    · simp [dictSet, dictGet?, hk, ih]

lemma dictGetD_dictIncr_self {κ : Type} [DecidableEq κ]
    (d : List (κ × ℚ)) (k : κ) (v : ℚ) :
    dictGetD (dictIncr d k v) k 0 = dictGetD d k 0 + v := by
  simp [dictIncr, dictGetD, dictGet?_dictSet_self]

lemma dictGet?_dictIncr_ne {κ : Type} [DecidableEq κ]
    (d : List (κ × ℚ)) (k k1 : κ) (v : ℚ) (hne : k1 ≠ k) :
    dictGet? (dictIncr d k v) k1 = dictGet? d k1 := by
  simp [dictIncr, dictGet?_dictSet_ne _ _ _ _ hne]

/-! ## Claim theorems -/

/-- C8 (counterexample): `get_days_between_unix_timestamps` does not equal
`|t2 − t1| div 86400` for every order of arguments, and it is not symmetric:
at `(t1, t2) = (1, 0)` the code returns `abs((0 - 1) // 86400) = abs(-1) = 1`
while the claimed formula gives `0 = |0 − 1| div 86400`, and swapping the
arguments changes the result. -/
theorem get_days_between_asymmetric_counterexample :
    get_days_between_unix_timestamps 1 0 = 1 ∧
    |(0 : ℤ) - 1| / 86400 = 0 ∧
    get_days_between_unix_timestamps 1 0 ≠ get_days_between_unix_timestamps 0 1 := by
  decide

/-- C8 (amended): `get_days_between_unix_timestamps(t1, t2)` equals
`abs(floor((t2 − t1) / 86400))`; it agrees with `|t2 − t1| div 86400`
whenever `t1 ≤ t2` (and, more generally, whenever `86400` divides
`t2 − t1`), and `get_days_between_unix_timestamps(now, now − 2·86400) = 2`
for every `now`.  For `t1 > t2` with a non-multiple difference, the code
rounds up instead of down, so it is not symmetric in its arguments. -/
theorem get_days_between_forward_and_exact (now t1 t2 : ℤ) (h : t1 ≤ t2) :
    get_days_between_unix_timestamps now (now - 2 * 86400) = 2 ∧
    get_days_between_unix_timestamps t1 t2 = |t2 - t1| / 86400 := by
  constructor
  · have harg : now - 2 * 86400 - now = -172800 := by ring
    rw [get_days_between_unix_timestamps, harg]
    decide
  · rw [get_days_between_unix_timestamps]
    have hd : 0 ≤ t2 - t1 := by omega
    rw [abs_of_nonneg hd]
    have hfd : Int.fdiv (t2 - t1) 86400 = (t2 - t1) / 86400 :=
      Int.fdiv_eq_ediv _ (by norm_num)
    rw [hfd, abs_of_nonneg (Int.ediv_nonneg hd (by norm_num))]

/-- Witness for C8 (amended), instantiated at `now = 7`, `t1 = 0`,
`t2 = 100`. -/
theorem get_days_between_forward_and_exact_witness :
    (0 : ℤ) ≤ 100 ∧
    (get_days_between_unix_timestamps 7 (7 - 2 * 86400) = 2 ∧
     get_days_between_unix_timestamps 0 100 = |(100 : ℤ) - 0| / 86400) :=
  ⟨by decide, get_days_between_forward_and_exact 7 0 100 (by decide)⟩

/-- C9 (confirmed): the pool has two distinct utilization readings.  The
per-tick reading `get_utilization` appended to the tick history is
`borrowed/(borrowed+available)` with `0` when the denominator is `0` and lies
in `[0, 1]` for non-negative amounts, while `get_current_utilization` (used
for fee calculation) returns `1` whenever `available_amount = 0`, even when
`borrowed_amount = 0` too; the two disagree on the empty pool. -/
theorem pool_utilization_two_readings (p : LendingPool) :
    (0 ≤ p.borrowed_amount → 0 ≤ p.available_amount →
      0 ≤ p.get_utilization ∧ p.get_utilization ≤ 1) ∧
    (p.borrowed_amount + p.available_amount = 0 → p.get_utilization = 0) ∧
    (p.borrowed_amount + p.available_amount ≠ 0 →
      p.get_utilization = p.borrowed_amount / (p.borrowed_amount + p.available_amount)) ∧
    (p.available_amount = 0 → p.get_current_utilization = some 1) ∧
    (p.available_amount = 0 → p.borrowed_amount = 0 →
      p.get_utilization = 0 ∧ p.get_current_utilization = some 1) ∧
    (∀ env p1 evs, p.take_step env = some (p1, evs) → env.time < p.next_cycle_time →
      p1.utilizations = p.utilizations ++ [p.get_utilization]) := by
  refine ⟨?_, ?_, ?_, ?_, ?_, ?_⟩
  · intro hb ha
    rw [LendingPool.get_utilization, safe_divide]
    by_cases h : p.borrowed_amount + p.available_amount = 0
    · simp [h]
    · have hpos : 0 < p.borrowed_amount + p.available_amount :=
        lt_of_le_of_ne (add_nonneg hb ha) (Ne.symm h)
      simp only [h, ne_eq, not_false_eq_true, if_true]
      exact ⟨div_nonneg hb hpos.le,
        (div_le_one hpos).mpr (le_add_of_nonneg_right ha)⟩
  · intro h
    simp [LendingPool.get_utilization, safe_divide, h]
  · intro h
    simp [LendingPool.get_utilization, safe_divide, h]
  · intro h
    simp [LendingPool.get_current_utilization, h]
  · intro ha hb
    simp [LendingPool.get_utilization, LendingPool.get_current_utilization,
      safe_divide, ha, hb]
  · intro env p1 evs hstep htime
    rw [LendingPool.take_step] at hstep
    simp only [ge_iff_le, not_le.mpr htime, if_false, Option.some.injEq,
      Prod.mk.injEq] at hstep
    rw [← hstep.1]

/-- Witness for C9 at a pool with `borrowed = 1`, `available = 3` and at the
empty pool. -/
theorem pool_utilization_two_readings_witness :
    (0 ≤ cUtilPool.borrowed_amount ∧ 0 ≤ cUtilPool.available_amount ∧
      cUtilPool.get_utilization ≤ 1) ∧
    (cEmptyPool.available_amount = 0 ∧ cEmptyPool.borrowed_amount = 0 ∧
      cEmptyPool.get_utilization = 0 ∧ cEmptyPool.get_current_utilization = some 1) :=
  ⟨⟨by decide, by decide,
    ((pool_utilization_two_readings cUtilPool).1 (by decide) (by decide)).2⟩,
   ⟨by decide, by decide,
    ((pool_utilization_two_readings cEmptyPool).2.2.2.2.1 (by decide) (by decide)).1,
    ((pool_utilization_two_readings cEmptyPool).2.2.2.2.1 (by decide) (by decide)).2⟩⟩

/-- C10 (confirmed): for a lender whose primary balance covers the amount,
`deposit` debits exactly `amount` from the lender's primary balance, credits
exactly `amount` to `pending_deposits[address]` (treating an absent entry as
`0`), and changes nothing else, in any pool status. -/
theorem deposit_effects_and_frame (p : LendingPool) (lender : Wallet) (amount : ℚ)
    (h : lender.primary_balance ≥ amount) :
    ∃ p1 w1, p.deposit lender amount = Except.ok (p1, w1) ∧
      w1.primary_balance = lender.primary_balance - amount ∧
      w1.secondary_balance = lender.secondary_balance ∧
      w1.address = lender.address ∧
      dictGetD p1.pending_deposits lender.address 0
        = dictGetD p.pending_deposits lender.address 0 + amount ∧
      (∀ addr, addr ≠ lender.address →
        dictGet? p1.pending_deposits addr = dictGet? p.pending_deposits addr) ∧
      p1.deposits = p.deposits ∧
      p1.total_deposits = p.total_deposits ∧
      p1.available_amount = p.available_amount ∧
      p1.borrowed_amount = p.borrowed_amount ∧
      p1.total_collateral_locked = p.total_collateral_locked ∧
      p1.total_fees_earned = p.total_fees_earned ∧
      p1.loans = p.loans ∧
      p1.borrower_loans = p.borrower_loans ∧
      p1.pending_withdrawals = p.pending_withdrawals ∧
      p1.signaled_withdrawals = p.signaled_withdrawals ∧
      p1.status = p.status := by
  rw [LendingPool.deposit, if_neg (not_lt.mpr h)]
  refine ⟨_, _, rfl, rfl, rfl, rfl, dictGetD_dictIncr_self _ _ _,
    fun addr hne => dictGet?_dictIncr_ne _ _ _ _ hne,
    rfl, rfl, rfl, rfl, rfl, rfl, rfl, rfl, rfl, rfl, rfl⟩

/-- Witness for C10 at a concrete genesis pool and lender. -/
theorem deposit_effects_and_frame_witness :
    aliceWallet.primary_balance ≥ 20 ∧
    ∃ p1 w1, c10Pool.deposit aliceWallet 20 = Except.ok (p1, w1) ∧
      w1.primary_balance = aliceWallet.primary_balance - 20 ∧
      w1.secondary_balance = aliceWallet.secondary_balance ∧
      w1.address = aliceWallet.address ∧
      dictGetD p1.pending_deposits aliceWallet.address 0
        = dictGetD c10Pool.pending_deposits aliceWallet.address 0 + 20 ∧
      (∀ addr, addr ≠ aliceWallet.address →
        dictGet? p1.pending_deposits addr = dictGet? c10Pool.pending_deposits addr) ∧
      p1.deposits = c10Pool.deposits ∧
      p1.total_deposits = c10Pool.total_deposits ∧
      p1.available_amount = c10Pool.available_amount ∧
      p1.borrowed_amount = c10Pool.borrowed_amount ∧
      p1.total_collateral_locked = c10Pool.total_collateral_locked ∧
      p1.total_fees_earned = c10Pool.total_fees_earned ∧
      p1.loans = c10Pool.loans ∧
      p1.borrower_loans = c10Pool.borrower_loans ∧
      p1.pending_withdrawals = c10Pool.pending_withdrawals ∧
      p1.signaled_withdrawals = c10Pool.signaled_withdrawals ∧
      p1.status = c10Pool.status :=
  ⟨by decide, deposit_effects_and_frame c10Pool aliceWallet 20 (by decide)⟩

/-- C6 (code bug): `withdraw_liquidity` raises a `KeyError` on exactly the
boundary cases the claim covers, even though its own precondition assert
(`pending_deposits.get(addr, 0) + pending_withdrawals.get(addr, 0) ≥ amount`)
accepts them: with no `pending_deposits` entry it executes
`del self._pending_deposits[addr]`, and with `amount` equal to the
pending-deposit balance and no `pending_withdrawals` entry it executes
`self._pending_withdrawals[addr] -= 0`, both on absent keys. -/
theorem withdraw_liquidity_boundary_keyerror :
    ((0 : ℚ) < 5 ∧
      (5 : ℚ) ≤ dictGetD c6PoolA.pending_deposits "lender1" 0 +
        dictGetD c6PoolA.pending_withdrawals "lender1" 0 ∧
      c6PoolA.withdraw_liquidity c6Lender 5 = Except.error PoolError.keyError) ∧
    ((0 : ℚ) < 5 ∧
      (5 : ℚ) ≤ dictGetD c6PoolB.pending_deposits "lender1" 0 +
        dictGetD c6PoolB.pending_withdrawals "lender1" 0 ∧
      dictGetD c6PoolB.pending_deposits "lender1" 0 = 5 ∧
      c6PoolB.withdraw_liquidity c6Lender 5 = Except.error PoolError.keyError) := by
  with_unfolding_all decide

/-- C4 (code bug): `select_next_highest` computes
`sorted_array[max(searchsorted(...), len - 1)]`, so on the grid
`[1/4, 1/2, 3/4]` a query of `3/10` selects `3/4` (the maximum) instead of
the smallest entry `≥ 3/10`, which is `1/2` — the `min`-variant demanded by
its own docstring returns `1/2` — and `get_fee` therefore evaluates the
curve keyed by `3/4` (value `3`) instead of the one keyed by `1/2`
(value `2`); a query at or above the maximum (`8/10`) raises an `IndexError`
instead of returning the maximum. -/
theorem select_next_highest_uses_max_not_min :
    select_next_highest [(1 : ℚ)/4, 1/2, 3/4] (3/10) = some (3/4) ∧
    select_next_highest_intended [(1 : ℚ)/4, 1/2, 3/4] (3/10) = some (1/2) ∧
    c4Model.get_fee (3/10) (1/2) (5 * 86400) = some 3 ∧
    (2 : ℚ) ≠ 3 ∧
    select_next_highest [(1 : ℚ)/4, 1/2, 3/4] (8/10) = none := by
  with_unfolding_all decide

/-- C5 (code bug): the strategies' removal loop mutates the agent list while
iterating over it, so with two adjacent borrower agents `update_agents` on a
new cycle keeps the second one: the returned list still contains `bAgent1`,
a pre-existing borrower, in both the V1 and the V2 strategy. -/
theorem update_agents_keeps_adjacent_borrower :
    coraV1Strategy_update_agents true [bAgent0, bAgent1] [] = [bAgent1] ∧
    coraV2Strategy_update_agents true [bAgent0, bAgent1] [] = [bAgent1] ∧
    bAgent1 ∈ [bAgent0, bAgent1] ∧ bAgent1.is_borrower = true ∧
    bAgent1 ∈ coraV1Strategy_update_agents true [bAgent0, bAgent1] [] := by
  have h1 : removeBorrowersLoop [bAgent0, bAgent1] 0 = [bAgent1] := by
    rw [removeBorrowersLoop]
    simp [bAgent0, bAgent1, List.erase]
    rw [removeBorrowersLoop]
    simp
  refine ⟨?_, ?_, by decide, by decide, ?_⟩ <;>
    simp [coraV1Strategy_update_agents, coraV2Strategy_update_agents, h1]

/-- C7 (counterexample): when the pool's available amount exactly equals the
agent's `loan_size` (and the duration fits, the start time is reached and
the agent has not borrowed), the borrower does NOT take out a loan on that
tick: the act stage returns the pool and agent unchanged with no `borrow`
action, refuting the claim's `available ≥ loan_size` threshold. -/
theorem borrower_act_equality_no_borrow :
    c7Env.time ≥ c7Agent.loan_start ∧
    c7Agent.has_borrowed = false ∧
    c7Pool.get_current_available_amount = c7Agent.loan_size ∧
    c7Agent.loan_duration ≤ c7Pool.next_cycle_time - c7Env.time ∧
    c7Agent.act_borrow_stage feeZero c7Env c7Pool = Except.ok (c7Pool, c7Agent, []) := by
  have hng : ¬ (c7Pool.get_current_available_amount > c7Agent.loan_size ∧
      c7Agent.loan_duration ≤ c7Pool.next_cycle_time - c7Env.time) := by
    intro h
    exact absurd h.1 (by decide)
  refine ⟨by decide, by decide, by decide, by decide, ?_⟩
  unfold CoraBorrowerAgent.act_borrow_stage
  rw [if_pos (⟨by decide, by decide⟩ : c7Env.time ≥ c7Agent.loan_start ∧
    c7Agent.has_borrowed = false), if_neg hng]

/-- C7 (amended): the borrower (once its start time is reached and it has
not yet borrowed) takes out its loan exactly when the pool's available
amount is STRICTLY greater than its `loan_size` and the duration fits; at
equality it does nothing that tick. -/
theorem borrower_act_strict_threshold (fm : ℚ → ℚ → ℤ → ℚ) (env : Env)
    (pool : LendingPool) (a : CoraBorrowerAgent)
    (hstart : env.time ≥ a.loan_start) (hnb : a.has_borrowed = false) :
    (¬ (pool.get_current_available_amount > a.loan_size ∧
        a.loan_duration ≤ pool.next_cycle_time - env.time) →
      a.act_borrow_stage fm env pool = Except.ok (pool, a, [])) ∧
    (∀ p1 w1 loan,
      pool.get_current_available_amount > a.loan_size →
      a.loan_duration ≤ pool.next_cycle_time - env.time →
      ¬ (a.ltv = 0 ∨ env.price = 0) →
      pool.borrow fm env a.wallet a.loan_size (a.loan_size / a.ltv / env.price)
          a.loan_duration = Except.ok (p1, w1, loan) →
      a.act_borrow_stage fm env pool =
        Except.ok (p1, { a with wallet := w1, loan := some loan, has_borrowed := true }, ["borrow"])) := by
  constructor
  · intro hng
    rw [CoraBorrowerAgent.act_borrow_stage, if_pos ⟨hstart, hnb⟩, if_neg hng]
  · intro p1 w1 loan hav hdur hnz hb
    rw [CoraBorrowerAgent.act_borrow_stage, if_pos ⟨hstart, hnb⟩,
      if_pos ⟨hav, hdur⟩, if_neg hnz]
    simp only [hb]

/-- Witness for C7 (amended), instantiated at the equality boundary where
the no-borrow branch applies. -/
theorem borrower_act_strict_threshold_witness :
    (c7Env.time ≥ c7Agent.loan_start ∧ c7Agent.has_borrowed = false ∧
      ¬ (c7Pool.get_current_available_amount > c7Agent.loan_size ∧
         c7Agent.loan_duration ≤ c7Pool.next_cycle_time - c7Env.time)) ∧
    c7Agent.act_borrow_stage feeZero c7Env c7Pool = Except.ok (c7Pool, c7Agent, []) :=
  ⟨⟨by decide, by decide, by decide⟩,
   (borrower_act_strict_threshold feeZero c7Env c7Pool c7Agent
     (by decide) (by decide)).1 (by decide)⟩

/-- C3 (confirmed): in a running pool, for a loan the borrower holds that
has not expired, when the borrower's primary balance covers `total_debt`,
`repay` performs exactly the listed mutations: `available_amount` grows by
`total_debt`, `borrowed_amount` shrinks by `net_loan`,
`total_collateral_locked` shrinks by `collateral_amount`,
`total_fees_earned` grows by `borrowing_fee`, the wallet loses `total_debt`
primary and regains `collateral_amount` secondary, the loan id leaves
`borrower_loans[address]`, the loan's `paid` flag is set, and everything
else is untouched. -/
theorem repay_success_mutations (env : Env) (p : LendingPool) (w : Wallet)
    (loan_id : String) (ids : List String) (loan : Loan)
    (hrun : p.status = LendingPoolStatus.running)
    (hids : dictGet? p.borrower_loans w.address = some ids)
    (hmem : loan_id ∈ ids)
    (hloan : dictGet? p.loans loan_id = some loan)
    (hexp : ¬ (env.time > loan.expiration_time))
    (hbal : w.primary_balance ≥ loan.total_debt) :
    ∃ p1 w1, p.repay env w loan_id = Except.ok (p1, w1) ∧
      p1.available_amount = p.available_amount + loan.total_debt ∧
      p1.borrowed_amount = p.borrowed_amount - loan.net_loan ∧
      p1.total_collateral_locked = p.total_collateral_locked - loan.collateral_amount ∧
      p1.total_fees_earned = p.total_fees_earned + loan.borrowing_fee ∧
      w1.primary_balance = w.primary_balance - loan.total_debt ∧
      w1.secondary_balance = w.secondary_balance + loan.collateral_amount ∧
      w1.address = w.address ∧
      dictGet? p1.borrower_loans w.address = some (ids.erase loan_id) ∧
      dictGet? p1.loans loan_id = some { loan with paid := true } ∧
      p1.status = p.status ∧
      p1.deposits = p.deposits ∧
      p1.total_deposits = p.total_deposits ∧
      p1.pending_deposits = p.pending_deposits ∧
      p1.pending_withdrawals = p.pending_withdrawals ∧
      p1.signaled_withdrawals = p.signaled_withdrawals ∧
      p1.utilizations = p.utilizations ∧
      p1.next_cycle_time = p.next_cycle_time := by
  have hgd : dictGetD p.borrower_loans w.address [] = ids := by
    simp [dictGetD, hids]
  unfold LendingPool.repay
  rw [if_neg (by simp [hrun])]
  rw [if_neg (by simp [dictContains, hids])]
  rw [if_neg (by simp [hgd, hmem])]
  simp only [hloan]
  rw [if_neg hexp, if_neg (not_lt.mpr hbal)]
  refine ⟨_, _, rfl, rfl, rfl, rfl, rfl, rfl, rfl, rfl, ?_, ?_,
    rfl, rfl, rfl, rfl, rfl, rfl, rfl, rfl⟩
  · rw [dictGet?_dictSet_self, hgd]
  · rw [dictGet?_dictSet_self]

/-- Witness for C3 at a concrete running pool, loan and wallet. -/
theorem repay_success_mutations_witness :
    (c3Pool.status = LendingPoolStatus.running ∧
     dictGet? c3Pool.borrower_loans c3Wallet.address = some ["V1LendingPool-b1-500"] ∧
     "V1LendingPool-b1-500" ∈ ["V1LendingPool-b1-500"] ∧
     dictGet? c3Pool.loans "V1LendingPool-b1-500" = some c3Loan ∧
     ¬ (c3Env.time > c3Loan.expiration_time) ∧
     c3Wallet.primary_balance ≥ c3Loan.total_debt) ∧
    ∃ p1 w1, c3Pool.repay c3Env c3Wallet "V1LendingPool-b1-500" = Except.ok (p1, w1) ∧
      p1.available_amount = c3Pool.available_amount + c3Loan.total_debt ∧
      p1.borrowed_amount = c3Pool.borrowed_amount - c3Loan.net_loan ∧
      p1.total_collateral_locked
        = c3Pool.total_collateral_locked - c3Loan.collateral_amount ∧
      p1.total_fees_earned = c3Pool.total_fees_earned + c3Loan.borrowing_fee ∧
      w1.primary_balance = c3Wallet.primary_balance - c3Loan.total_debt ∧
      w1.secondary_balance = c3Wallet.secondary_balance + c3Loan.collateral_amount ∧
      w1.address = c3Wallet.address ∧
      dictGet? p1.borrower_loans c3Wallet.address
        = some (["V1LendingPool-b1-500"].erase "V1LendingPool-b1-500") ∧
      dictGet? p1.loans "V1LendingPool-b1-500" = some { c3Loan with paid := true } ∧
      p1.status = c3Pool.status ∧
      p1.deposits = c3Pool.deposits ∧
      p1.total_deposits = c3Pool.total_deposits ∧
      p1.pending_deposits = c3Pool.pending_deposits ∧
      p1.pending_withdrawals = c3Pool.pending_withdrawals ∧
      p1.signaled_withdrawals = c3Pool.signaled_withdrawals ∧
      p1.utilizations = c3Pool.utilizations ∧
      p1.next_cycle_time = c3Pool.next_cycle_time :=
  ⟨⟨by decide, by decide, by decide, by decide, by decide, by decide⟩,
   repay_success_mutations c3Env c3Pool c3Wallet "V1LendingPool-b1-500"
     ["V1LendingPool-b1-500"] c3Loan (by decide) (by decide) (by decide)
     (by decide) (by decide) (by decide)⟩

/-- `get_current_utilization` yields a value (no `ZeroDivisionError`) when
both pool amounts are non-negative. -/
lemma get_current_utilization_isSome_of_nonneg (p : LendingPool)
    (ha : 0 ≤ p.available_amount) (hb : 0 ≤ p.borrowed_amount) :
    ∃ u, p.get_current_utilization = some u := by
  simp only [LendingPool.get_current_utilization]
  by_cases h : p.available_amount = 0
  · exact ⟨1, by rw [if_pos h]⟩
  · have hpos : 0 < p.available_amount := lt_of_le_of_ne ha (Ne.symm h)
    have htot : p.available_amount + p.borrowed_amount ≠ 0 :=
      (add_pos_of_pos_of_nonneg hpos hb).ne'
    rw [if_neg h, if_neg htot]
    exact ⟨_, rfl⟩

/-- C2 (counterexample): with zero collateral the source computes
`ltv = borrow_amount / (collateral_amount · price)` before any named check
and raises a `ZeroDivisionError`, although the claim's precondition list
fails at `borrow_amount > collateral·price·max_ltv` and so demands the
named insufficient-collateral error. -/
theorem borrow_zero_collateral_counterexample :
    borrowCheck c2Env c2Pool c2Wallet 5 0 30 = some PoolError.insuficientCollateral ∧
    c2Pool.borrow feeZero c2Env c2Wallet 5 0 30
      = Except.error (PoolError.zeroDivision, c2Pool, c2Wallet) ∧
    PoolError.isNamed PoolError.zeroDivision = false := by
  refine ⟨?_, ?_, rfl⟩
  · norm_num [borrowCheck, c2Env, c2Pool, c2Wallet, basePool]
  · norm_num [LendingPool.borrow, c2Env, c2Pool, c2Wallet, basePool]

/-- C2 (amended): provided the collateral value `collateral_amount · price`
is non-zero (the source otherwise raises an unnamed `ZeroDivisionError`
before its checks), and the pool state is sane (`min_loan_amount ≥ 0`,
`borrowed_amount ≥ 0`), `borrow` raises the distinct named error of the
first failing precondition exactly when one of the listed preconditions
fails, succeeds when none fails, and on any error (including the
division-by-zero one) leaves the pool and the borrower's wallet exactly as
they were. -/
theorem borrow_named_errors_amended (fm : ℚ → ℚ → ℤ → ℚ) (env : Env)
    (p : LendingPool) (w : Wallet) (borrow_amount collateral_amount : ℚ)
    (loan_period : ℤ)
    (hval : ¬ (collateral_amount * env.price = 0))
    (hmin : 0 ≤ p.min_loan_amount)
    (hbor : 0 ≤ p.borrowed_amount) :
    (∀ e p1 w1,
      p.borrow fm env w borrow_amount collateral_amount loan_period
        = Except.error (e, p1, w1) → p1 = p ∧ w1 = w) ∧
    (∀ e, borrowCheck env p w borrow_amount collateral_amount loan_period = some e →
      p.borrow fm env w borrow_amount collateral_amount loan_period
        = Except.error (e, p, w)) ∧
    (borrowCheck env p w borrow_amount collateral_amount loan_period = none →
      ∃ r, p.borrow fm env w borrow_amount collateral_amount loan_period
        = Except.ok r) := by
  refine ⟨?_, ?_, ?_⟩
  · intro e p1 w1 h
    simp only [LendingPool.borrow] at h
    repeat' split at h
    all_goals simp_all
  · intro e he
    simp only [borrowCheck] at he
    simp only [LendingPool.borrow]
    rw [if_neg hval]
    split_ifs at he ⊢ <;> simp_all
  · intro hnone
    simp only [borrowCheck] at hnone
    simp only [LendingPool.borrow]
    split_ifs at hnone with h1 h2 h3 h4 h5 h6 h7
    any_goals simp at hnone
    have h0av : 0 ≤ p.available_amount :=
      le_trans hmin (le_trans (not_lt.mp h2) (not_lt.mp h5))
    obtain ⟨u, hu⟩ := get_current_utilization_isSome_of_nonneg p h0av hbor
    rw [if_neg h1, if_neg hval, if_neg h2, if_neg h3, if_neg h4, if_neg h5,
      if_neg h6, if_neg h7, hu]
    exact ⟨_, rfl⟩

/-- Witness for C2 (amended), exercising the named-error branch
(`LoanAmountTooLow`) at a concrete pool with `min_loan_amount = 10`. -/
theorem borrow_named_errors_amended_witness :
    (¬ ((1 : ℚ) * c2Env.price = 0) ∧ 0 ≤ c2wPool.min_loan_amount ∧
      0 ≤ c2wPool.borrowed_amount ∧
      borrowCheck c2Env c2wPool c2Wallet 5 1 30 = some PoolError.loanAmountTooLow) ∧
    c2wPool.borrow feeZero c2Env c2Wallet 5 1 30
      = Except.error (PoolError.loanAmountTooLow, c2wPool, c2Wallet) :=
  ⟨⟨by norm_num [c2Env], by decide, by decide,
    by norm_num [borrowCheck, c2Env, c2wPool, c2Wallet, basePool]⟩,
   (borrow_named_errors_amended feeZero c2Env c2wPool c2Wallet 5 1 30
      (by norm_num [c2Env]) (by decide) (by decide)).2.1 PoolError.loanAmountTooLow
      (by norm_num [borrowCheck, c2Env, c2wPool, c2Wallet, basePool])⟩

/-- Every field the reset block of `take_step` establishes. -/
lemma resetPoolData_fields (q : LendingPool) :
    (resetPoolData q).available_amount = (resetPoolData q).total_deposits ∧
    (resetPoolData q).borrowed_amount = 0 ∧
    (resetPoolData q).total_collateral_locked = 0 ∧
    (resetPoolData q).total_fees_earned = 0 ∧
    (resetPoolData q).total_deposits = dictSumValues (resetPoolData q).deposits ∧
    (resetPoolData q).is_new_cycle = q.is_new_cycle := by
  simp [resetPoolData]

/-- C1 (confirmed): whenever `take_step` crosses a cycle boundary (genesis
promotion or the end of a running cycle) and completes, the per-cycle
bookkeeping is reset: immediately afterwards
`available_amount = total_deposits`, `borrowed_amount = 0`,
`total_collateral_locked = 0`, `total_fees_earned = 0`, and
`total_deposits` equals the sum of `deposits` over addresses (invariants I1
and I2 at cycle start), with `is_new_cycle` raised. -/
theorem take_step_cycle_reset (env : Env) (p p1 : LendingPool) (evs : List String)
    (hstep : p.take_step env = some (p1, evs))
    (hcross : env.time ≥ p.next_cycle_time) :
    p1.is_new_cycle = true ∧
    p1.available_amount = p1.total_deposits ∧
    p1.borrowed_amount = 0 ∧
    p1.total_collateral_locked = 0 ∧
    p1.total_fees_earned = 0 ∧
    p1.total_deposits = dictSumValues p1.deposits := by
  simp only [LendingPool.take_step] at hstep
  split at hstep
  · split at hstep
    · -- genesis promotion
      rw [Option.some.injEq, Prod.mk.injEq] at hstep
      obtain ⟨hp, _⟩ := hstep
      subst hp
      have h := resetPoolData_fields
        { p with
            utilizations := p.utilizations ++ [p.get_utilization]
            is_new_cycle := true
            status := LendingPoolStatus.running
            cycle_count := p.cycle_count + 1
            deposits := p.pending_deposits }
      exact ⟨by simpa using h.2.2.2.2.2, h.1, h.2.1, h.2.2.1, h.2.2.2.1,
        h.2.2.2.2.1⟩
    · -- end of a running cycle
      split at hstep
      · simp at hstep
      · split at hstep
        · simp at hstep
        · split at hstep
          · simp at hstep
          · rw [Option.some.injEq, Prod.mk.injEq] at hstep
            obtain ⟨hp, _⟩ := hstep
            subst hp
            refine ⟨by simp [resetPoolData], by simp [resetPoolData],
              by simp [resetPoolData], by simp [resetPoolData],
              by simp [resetPoolData], by simp [resetPoolData]⟩
  · -- no boundary crossed: contradicts `hcross`
    next hc => exact absurd hcross hc

/-- Witness for C1 at a concrete genesis pool crossing into its first
running cycle. -/
theorem take_step_cycle_reset_witness :
    c1Env.time ≥ c1Pool.next_cycle_time ∧
    ∃ q evs, c1Pool.take_step c1Env = some (q, evs) ∧
      (q.is_new_cycle = true ∧
       q.available_amount = q.total_deposits ∧
       q.borrowed_amount = 0 ∧
       q.total_collateral_locked = 0 ∧
       q.total_fees_earned = 0 ∧
       q.total_deposits = dictSumValues q.deposits) := by
  refine ⟨by decide, ?_⟩
  rcases hs : c1Pool.take_step c1Env with _ | ⟨q, evs⟩
  · exact absurd hs (by with_unfolding_all decide)
  · exact ⟨q, evs, rfl, take_step_cycle_reset c1Env c1Pool q evs hs (by decide)⟩

end Cora
